import Mathlib

/-!
Verification of the vec-inf job lifecycle client (ml4oncology/ml4o-inference).

The repository ships the CLI layer (src/vec_inf/cli/_cli.py) and the
cluster constants (src/vec_inf/client/slurm_vars.py); the core client
operations (resolver, status reconciler, metrics poller, cleanup engine,
batch submission) are specified in spec.md and modelled here from that
specification where their code is not in the repository.
-/

namespace VecInf

/-! Cluster constants, from src/vec_inf/client/slurm_vars.py. -/

/-- Maximum GPUs per node (slurm_vars.py line 15). -/
def MAX_GPUS_PER_NODE : Nat := 8

/-- Maximum number of nodes (slurm_vars.py line 16). -/
def MAX_NUM_NODES : Nat := 16

/-- Maximum CPUs per task (slurm_vars.py line 17). -/
def MAX_CPUS_PER_TASK : Nat := 128

/-- Default CPUs per task from DEFAULT_ARGS in slurm_vars.py. -/
def DEFAULT_CPUS_PER_TASK : Nat := 16

/-! Launch configuration resolver (spec section 4.2). -/

/-- User-supplied overrides for the numeric resource fields of a launch. -/
structure ResourceOverrides where
  num_nodes : Option Nat
  gpus_per_node : Option Nat
  cpus_per_task : Option Nat
deriving Repr, DecidableEq

/-- Registry entry for one model: its name and default resource shape. -/
structure ModelEntry where
  name : String
  num_nodes : Nat
  gpus_per_node : Nat
  cpus_per_task : Nat
deriving Repr, DecidableEq

/-- Errors raised by the resolver. -/
inductive ResolveError where
  | UnknownModelError (model_name : String)
  | InvalidResourceError (field : String) (bound : Nat)
deriving Repr, DecidableEq

/-- Fully resolved launch specification (resource fields). -/
structure LaunchSpec where
  model_name : String
  num_nodes : Nat
  gpus_per_node : Nat
  cpus_per_task : Nat
deriving Repr, DecidableEq

/-- Modelled from the spec: validation of one resolved numeric resource
value against the cluster bound, failing with InvalidResourceError naming
the offending field and bound (spec 4.2). -/
def checkResource (field : String) (bound : Nat) (value : Nat) :
    Except ResolveError Nat :=
  if 1 ≤ value ∧ value ≤ bound then .ok value
  else .error (.InvalidResourceError field bound)

/-- Validation stage of the resolver: checks the three resolved numeric
resource values in order (nodes, then GPUs per node, then CPUs per task)
and builds the LaunchSpec when all pass. -/
def resolveValues (model_name : String) (rn rg rc : Nat) :
    Except ResolveError LaunchSpec :=
  match checkResource "num_nodes" MAX_NUM_NODES rn with
  | .error e => .error e
  | .ok n =>
    match checkResource "gpus_per_node" MAX_GPUS_PER_NODE rg with
    | .error e => .error e
    | .ok g =>
      match checkResource "cpus_per_task" MAX_CPUS_PER_TASK rc with
      | .error e => .error e
      | .ok c =>
        .ok { model_name := model_name, num_nodes := n,
              gpus_per_node := g, cpus_per_task := c }

/-- Modelled from the spec: the resolver (spec 4.2).  The code of
vec_inf.client resolve is not in the repository; per the spec, overrides
take precedence over registry defaults, each numeric resource value is
validated against the cluster maxima of slurm_vars.py, and an unknown
model name fails with UnknownModelError. -/
def resolve (registry : List ModelEntry) (model_name : String)
    (ov : ResourceOverrides) : Except ResolveError LaunchSpec :=
  match registry.find? (fun e => e.name == model_name) with
  | none => .error (.UnknownModelError model_name)
  | some entry =>
    resolveValues model_name
      (ov.num_nodes.getD entry.num_nodes)
      (ov.gpus_per_node.getD entry.gpus_per_node)
      (ov.cpus_per_task.getD entry.cpus_per_task)

/-! Status reconciler (spec section 4.4). -/

/-- Logical job states (spec 4.4, closed set). -/
inductive JobState where
  | PENDING
  | LAUNCHING
  | RUNNING
  | COMPLETED
  | FAILED
  | CANCELLED
  | SHUTDOWN
  | UNKNOWN
deriving Repr, DecidableEq

/-- Terminal marker found in a job log, distinguishing normal exit, error
exit, explicit cancellation, and shutdown (spec 4.4 step 4). -/
inductive TerminalMarker where
  | normalExit
  | errorExit (excerpt : String)
  | cancelledMarker
  | shutdownMarker
deriving Repr, DecidableEq

/-- Scheduler queue state for a job that is present in the queue. -/
inductive QueueState where
  | waiting (reason : String)
  | runningState
deriving Repr, DecidableEq

/-- View of a job's log directory: whether the readiness marker has been
seen, and the terminal marker if one exists. -/
structure LogDir where
  readiness : Bool
  terminal : Option TerminalMarker
deriving Repr, DecidableEq

/-- Terminal state corresponding to a terminal marker (spec 4.4 step 4). -/
def terminalState : TerminalMarker → JobState
  | .normalExit => .COMPLETED
  | .errorExit _ => .FAILED
  | .cancelledMarker => .CANCELLED
  | .shutdownMarker => .SHUTDOWN

/-- Modelled from the spec: the status derivation algorithm of
get_status (spec 4.4, steps 1 to 4).  The code of vec_inf.client
get_status is not in the repository.  The scheduler queue view is
`none` when the job is absent from the queue. -/
def get_status (queue : Option QueueState) (log : LogDir) : JobState :=
  match queue with
  | some (.waiting _) => .PENDING
  | some .runningState => if log.readiness then .RUNNING else .LAUNCHING
  | none =>
    match log.terminal with
    | some t => terminalState t
    | none => .UNKNOWN

/-- Whether a state is terminal (spec 4.4: COMPLETED, FAILED, CANCELLED,
SHUTDOWN admit no further transitions). -/
def isTerminal : JobState → Bool
  | .COMPLETED => true
  | .FAILED => true
  | .CANCELLED => true
  | .SHUTDOWN => true
  | _ => false

/-- Combined external view consulted by one get_status poll: scheduler
queue entry (if any) and the log directory. -/
structure SchedulerView where
  queue : Option QueueState
  log : LogDir
deriving Repr, DecidableEq

/-- Modelled from the spec: how the external state may evolve between two
successive polls.  The log file is append-only (spec section 6), so the
readiness marker and the terminal marker persist, and a job that has left
the scheduler queue never reappears under the same job id. -/
def EnvStep (e e₂ : SchedulerView) : Prop :=
  (e.log.readiness = true → e₂.log.readiness = true) ∧
  (∀ t, e.log.terminal = some t → e₂.log.terminal = some t) ∧
  (e.queue = none → e₂.queue = none)

/-! Job submission engine, batch mode (spec section 4.3). -/

/-- Handle returned by a successful submission. -/
structure JobHandle where
  job_id : Nat
  model_name : String
  log_dir : String
deriving Repr, DecidableEq

/-- Outcome of one entry of a batch submission. -/
inductive BatchOutcome where
  | success (handle : JobHandle)
  | failure (reason : String)
deriving Repr, DecidableEq

/-- Outcome of submitting a single entry through the scheduler submit
primitive, which either yields a handle or an error reason. -/
def submitOutcome (submitOne : LaunchSpec → Except String JobHandle)
    (spec : LaunchSpec) : BatchOutcome :=
  match submitOne spec with
  | .ok h => .success h
  | .error r => .failure r

/-- Modelled from the spec: sequential batch submission (spec 4.3).  The
code of vec_inf.client batch submission is not in the repository; per the
spec, entries are processed in order, a failure is recorded and processing
continues with the remaining entries. -/
def submit_batch (submitOne : LaunchSpec → Except String JobHandle) :
    List LaunchSpec → List BatchOutcome
  | [] => []
  | spec :: rest => submitOutcome submitOne spec :: submit_batch submitOne rest

/-! Shutdown (spec 4.4 step 5). -/

/-- Outcome of the scheduler cancel primitive (spec section 6:
success, idempotent success for an already gone job, or error). -/
inductive CancelOutcome where
  | cancelSuccess
  | alreadyGone
  | cancelError (msg : String)
deriving Repr, DecidableEq

/-- Error raised by shutdown when the cancel call itself errors. -/
inductive ShutdownFailure where
  | mkFailure (msg : String)
deriving Repr, DecidableEq

/-- Scheduler-side record of a job: whether it has reached a terminal
state. -/
structure SchedulerJob where
  terminal : Bool
deriving Repr, DecidableEq

/-- Modelled from the spec: the scheduler cancel primitive.  Cancelling a
job that is already gone or already terminal reports idempotent success;
cancelling a live job succeeds and makes it terminal (spec section 6). -/
def cancelPrimitive : Option SchedulerJob → CancelOutcome × Option SchedulerJob
  | none => (.alreadyGone, none)
  | some j =>
    if j.terminal then (.alreadyGone, some j)
    else (.cancelSuccess, some { terminal := true })

/-- Modelled from the spec: how shutdown maps the cancel outcome to its
result — only a cancel error becomes a ShutdownFailure (spec 4.4 step 5). -/
def shutdownResult : CancelOutcome → Except ShutdownFailure Unit
  | .cancelSuccess => .ok ()
  | .alreadyGone => .ok ()
  | .cancelError msg => .error (.mkFailure msg)

/-- Modelled from the spec: shutdown issues the cancel primitive against
the current scheduler state and returns its mapped result together with
the scheduler state after the call. -/
def shutdown (s : Option SchedulerJob) :
    Except ShutdownFailure Unit × Option SchedulerJob :=
  ((shutdownResult (cancelPrimitive s).1), (cancelPrimitive s).2)

/-! Metrics poller (spec section 4.5). -/

/-- Result of get_metrics: either a parsed snapshot mapping metric names
to values, or textual status explaining why metrics are unavailable. -/
inductive MetricsValue where
  | snapshot (metrics : List (String × Int))
  | statusText (text : String)
deriving Repr, DecidableEq

/-- Outcome of the single bounded-timeout HTTP request to the metrics
endpoint: a parsed body, or a description of the network failure,
timeout, or non-2xx response. -/
inductive HttpOutcome where
  | httpOk (body : List (String × Int))
  | httpFailure (desc : String)
deriving Repr, DecidableEq

/-- Modelled from the spec: get_metrics resolves status first; if the
status is not RUNNING it returns the status's human-readable description
and attempts no network call; if RUNNING it issues the HTTP request, and
any failure is returned as status text, never an exception (spec 4.5).
The returned Bool records whether a network call was attempted. -/
def get_metrics (describe : JobState → String) (status : JobState)
    (http : HttpOutcome) : MetricsValue × Bool :=
  if status = .RUNNING then
    match http with
    | .httpOk body => (.snapshot body, true)
    | .httpFailure desc => (.statusText desc, true)
  else (.statusText (describe status), false)

/-! Log cleanup engine (spec section 4.6). -/

/-- Identity encoded by a per-job log directory path, following the
naming convention log_root/model_family/model_name/job_id. -/
structure LogDirRecord where
  model_family : String
  model_name : String
  job_id : Nat
deriving Repr, DecidableEq

/-- Optional cleanup filters, mirroring the options of the cleanup
command in src/vec_inf/cli/_cli.py lines 408 to 428. -/
structure CleanupFilters where
  model_family : Option String
  model_name : Option String
  job_id : Option Nat
  before_job_id : Option Nat
deriving Repr, DecidableEq

/-- Modelled from the spec: conjunctive filter match (spec 4.6).  Each
given filter must hold; an absent filter holds vacuously; before_job_id
matches job ids strictly less than the given value. -/
def matchesFilters (f : CleanupFilters) (d : LogDirRecord) : Bool :=
  (match f.model_family with
   | none => true
   | some fam => d.model_family == fam) &&
  (match f.model_name with
   | none => true
   | some n => d.model_name == n) &&
  (match f.job_id with
   | none => true
   | some j => d.job_id == j) &&
  (match f.before_job_id with
   | none => true
   | some b => decide (d.job_id < b))

/-- Modelled from the spec: sequential removal of the matched directories.
removeOk tells whether recursive removal of a directory succeeds; a
failure is recorded and processing continues with the remaining matches
(spec 4.6).  Returns (removed, failed). -/
def cleanupRun (removeOk : LogDirRecord → Bool) :
    List LogDirRecord → List LogDirRecord × List LogDirRecord
  | [] => ([], [])
  | d :: rest =>
    let r := cleanupRun removeOk rest
    if removeOk d then (d :: r.1, r.2) else (r.1, d :: r.2)

/-- Report produced by one cleanup call: the matched set, the directories
removed successfully, and the matched directories whose removal failed. -/
structure CleanupReport where
  matched : List LogDirRecord
  removed : List LogDirRecord
  failed : List LogDirRecord
deriving Repr, DecidableEq

/-- Modelled from the spec: the cleanup engine (spec 4.6).  dirs is the
set of log directories under the root; the second component of the result
is the directory tree left on disk after the call. -/
def cleanup (dirs : List LogDirRecord) (f : CleanupFilters) (dry_run : Bool)
    (removeOk : LogDirRecord → Bool) : CleanupReport × List LogDirRecord :=
  let matched := dirs.filter (matchesFilters f)
  if dry_run then
    ({ matched := matched, removed := [], failed := [] }, dirs)
  else
    let run := cleanupRun removeOk matched
    ({ matched := matched, removed := run.1, failed := run.2 },
     dirs.filter (fun d => !(matchesFilters f d && removeOk d)))

/-! The launch command (src/vec_inf/cli/_cli.py lines 172 to 196). -/

/-- Value of one CLI keyword argument. -/
inductive CliValue where
  | strVal (s : String)
  | intVal (n : Int)
  | boolVal (b : Bool)
  | noneVal
deriving Repr, DecidableEq

/-- Keyword-argument dictionary, as an association list with unique keys. -/
abbrev Kwargs := List (String × CliValue)

/-- Deletion of a key from the dictionary, modelling the Python del
statement on line 175 of _cli.py (keys are unique in a dict). -/
def delKey (k : String) (kw : Kwargs) : Kwargs :=
  kw.filter (fun p => p.1 != k)

/-- Update of the value stored at a key, leaving other entries unchanged. -/
def setKey (k : String) (v : CliValue) (kw : Kwargs) : Kwargs :=
  kw.map (fun p => if p.1 == k then (k, v) else p)

/-- The model name and options passed to VecInfClient.launch_model. -/
structure LaunchRequest where
  model_name : String
  options : Kwargs
deriving Repr, DecidableEq

/-- The request built by the launch command (_cli.py lines 174 to 181):
json_mode is deleted from cli_kwargs before LaunchOptions is constructed
from the remaining keyword arguments. -/
def launchRequest (model_name : String) (cli_kwargs : Kwargs) : LaunchRequest :=
  { model_name := model_name, options := delKey "json_mode" cli_kwargs }

/-! The metrics command (src/vec_inf/cli/_cli.py lines 377 to 401). -/

/-- Display action performed by the metrics command: a one-shot failed
metrics print followed by return, or a live-table update inside the
streaming loop. -/
inductive DisplayEvent where
  | printFailed (text : String)
  | liveFailed (text : String)
  | liveMetrics (metrics : List (String × Int))
deriving Repr, DecidableEq

/-- Display action of one loop iteration (_cli.py lines 391 to 400): a
string snapshot is formatted as failed metrics, a mapping as a metrics
table; either way the live table is updated and the loop continues. -/
def loopEvent : MetricsValue → DisplayEvent
  | .statusText s => .liveFailed s
  | .snapshot m => .liveMetrics m

/-- The metrics command (_cli.py lines 377 to 401).  first is the first
get_metrics result; later lists the results of the successive get_metrics
calls made inside the (unbounded) streaming loop, of which any finite
prefix of iterations is modelled.  Returns the display actions. -/
def metricsCommand (first : MetricsValue) (later : List MetricsValue) :
    List DisplayEvent :=
  match first with
  | .statusText s => [.printFailed s]
  | .snapshot _ => later.map loopEvent

/-! Theorems. -/

/-- Characterization of the validation stage: the first out-of-bounds
value, in checking order, determines the error; if all are in bounds the
LaunchSpec carries exactly the resolved values. -/
theorem resolveValues_spec (model_name : String) (rn rg rc : Nat) :
    ((1 ≤ rn ∧ rn ≤ MAX_NUM_NODES) → (1 ≤ rg ∧ rg ≤ MAX_GPUS_PER_NODE) →
      (1 ≤ rc ∧ rc ≤ MAX_CPUS_PER_TASK) →
      resolveValues model_name rn rg rc =
        .ok { model_name := model_name, num_nodes := rn,
              gpus_per_node := rg, cpus_per_task := rc }) ∧
    (¬ (1 ≤ rn ∧ rn ≤ MAX_NUM_NODES) →
      resolveValues model_name rn rg rc =
        .error (.InvalidResourceError "num_nodes" MAX_NUM_NODES)) ∧
    ((1 ≤ rn ∧ rn ≤ MAX_NUM_NODES) → ¬ (1 ≤ rg ∧ rg ≤ MAX_GPUS_PER_NODE) →
      resolveValues model_name rn rg rc =
        .error (.InvalidResourceError "gpus_per_node" MAX_GPUS_PER_NODE)) ∧
    ((1 ≤ rn ∧ rn ≤ MAX_NUM_NODES) → (1 ≤ rg ∧ rg ≤ MAX_GPUS_PER_NODE) →
      ¬ (1 ≤ rc ∧ rc ≤ MAX_CPUS_PER_TASK) →
      resolveValues model_name rn rg rc =
        .error (.InvalidResourceError "cpus_per_task" MAX_CPUS_PER_TASK)) := by
  by_cases h1 : 1 ≤ rn ∧ rn ≤ MAX_NUM_NODES <;>
    by_cases h2 : 1 ≤ rg ∧ rg ≤ MAX_GPUS_PER_NODE <;>
      by_cases h3 : 1 ≤ rc ∧ rc ≤ MAX_CPUS_PER_TASK <;>
        simp [resolveValues, checkResource, h1, h2, h3]

/-- Claim C1: for every call to resolve with a model found in the
registry, each resolved numeric resource value (nodes, GPUs per node,
CPUs per task) must lie in [1, cluster maximum] with the maxima of
slurm_vars.py (MAX_NUM_NODES = 16, MAX_GPUS_PER_NODE = 8,
MAX_CPUS_PER_TASK = 128); an out-of-bounds value makes resolve fail with
InvalidResourceError naming the offending field and bound, and every
successful resolve returns a LaunchSpec whose resource fields all lie
within [1, cluster maximum]. -/
theorem C1_resolve_resource_bounds (registry : List ModelEntry)
    (model_name : String) (ov : ResourceOverrides) (entry : ModelEntry)
    (hfound : registry.find? (fun e => e.name == model_name) = some entry) :
    (¬ (1 ≤ ov.num_nodes.getD entry.num_nodes ∧
        ov.num_nodes.getD entry.num_nodes ≤ MAX_NUM_NODES) →
      resolve registry model_name ov =
        .error (.InvalidResourceError "num_nodes" MAX_NUM_NODES)) ∧
    ((1 ≤ ov.num_nodes.getD entry.num_nodes ∧
        ov.num_nodes.getD entry.num_nodes ≤ MAX_NUM_NODES) →
      ¬ (1 ≤ ov.gpus_per_node.getD entry.gpus_per_node ∧
          ov.gpus_per_node.getD entry.gpus_per_node ≤ MAX_GPUS_PER_NODE) →
      resolve registry model_name ov =
        .error (.InvalidResourceError "gpus_per_node" MAX_GPUS_PER_NODE)) ∧
    ((1 ≤ ov.num_nodes.getD entry.num_nodes ∧
        ov.num_nodes.getD entry.num_nodes ≤ MAX_NUM_NODES) →
      (1 ≤ ov.gpus_per_node.getD entry.gpus_per_node ∧
        ov.gpus_per_node.getD entry.gpus_per_node ≤ MAX_GPUS_PER_NODE) →
      ¬ (1 ≤ ov.cpus_per_task.getD entry.cpus_per_task ∧
          ov.cpus_per_task.getD entry.cpus_per_task ≤ MAX_CPUS_PER_TASK) →
      resolve registry model_name ov =
        .error (.InvalidResourceError "cpus_per_task" MAX_CPUS_PER_TASK)) ∧
    (∀ spec, resolve registry model_name ov = .ok spec →
      (1 ≤ spec.num_nodes ∧ spec.num_nodes ≤ MAX_NUM_NODES) ∧
      (1 ≤ spec.gpus_per_node ∧ spec.gpus_per_node ≤ MAX_GPUS_PER_NODE) ∧
      (1 ≤ spec.cpus_per_task ∧ spec.cpus_per_task ≤ MAX_CPUS_PER_TASK)) := by
  have hre : resolve registry model_name ov =
      resolveValues model_name
        (ov.num_nodes.getD entry.num_nodes)
        (ov.gpus_per_node.getD entry.gpus_per_node)
        (ov.cpus_per_task.getD entry.cpus_per_task) := by
    unfold resolve
    rw [hfound]
  obtain ⟨hok, he1, he2, he3⟩ := resolveValues_spec model_name
    (ov.num_nodes.getD entry.num_nodes)
    (ov.gpus_per_node.getD entry.gpus_per_node)
    (ov.cpus_per_task.getD entry.cpus_per_task)
  refine ⟨fun h => hre.trans (he1 h), fun h1 h2 => hre.trans (he2 h1 h2),
    fun h1 h2 h3 => hre.trans (he3 h1 h2 h3), fun spec hspec => ?_⟩
  by_cases h1 : 1 ≤ ov.num_nodes.getD entry.num_nodes ∧
      ov.num_nodes.getD entry.num_nodes ≤ MAX_NUM_NODES
  · by_cases h2 : 1 ≤ ov.gpus_per_node.getD entry.gpus_per_node ∧
        ov.gpus_per_node.getD entry.gpus_per_node ≤ MAX_GPUS_PER_NODE
    · by_cases h3 : 1 ≤ ov.cpus_per_task.getD entry.cpus_per_task ∧
          ov.cpus_per_task.getD entry.cpus_per_task ≤ MAX_CPUS_PER_TASK
      · rw [hre, hok h1 h2 h3] at hspec
        cases hspec
        exact ⟨h1, h2, h3⟩
      · rw [hre, he3 h1 h2 h3] at hspec
        cases hspec
    · rw [hre, he2 h1 h2] at hspec
      cases hspec
  · rw [hre, he1 h1] at hspec
    cases hspec

/-- Witness for C1: in a one-entry registry, overriding num_nodes to 99
(above MAX_NUM_NODES = 16) makes resolve fail with InvalidResourceError
naming num_nodes and its bound. -/
theorem C1_resolve_resource_bounds_witness :
    resolve [{ name := "llama-7b", num_nodes := 1, gpus_per_node := 4,
               cpus_per_task := 16 }] "llama-7b"
        { num_nodes := some 99, gpus_per_node := none, cpus_per_task := none } =
      .error (.InvalidResourceError "num_nodes" MAX_NUM_NODES) :=
  (C1_resolve_resource_bounds _ _ _
    { name := "llama-7b", num_nodes := 1, gpus_per_node := 4,
      cpus_per_task := 16 } (by decide)).1 (by decide)

/-- Claim C2: when the job is absent from the scheduler queue and no
terminal marker exists in the log directory, get_status reports UNKNOWN;
and for a log directory without a terminal marker (the situation right
after a successful submission) the status is UNKNOWN when the scheduler
has not indexed the job, PENDING when it reports the job waiting, and
never FAILED for any queue view. -/
theorem C2_fresh_submission_status (queue : Option QueueState) (log : LogDir)
    (hterm : log.terminal = none) :
    get_status none log = .UNKNOWN ∧
    (∀ r, get_status (some (.waiting r)) log = .PENDING) ∧
    get_status queue log ≠ .FAILED := by
  refine ⟨by simp [get_status, hterm], fun r => by simp [get_status], ?_⟩
  match queue with
  | none => simp [get_status, hterm]
  | some (.waiting r) => simp [get_status]
  | some .runningState =>
    by_cases hr : log.readiness <;> simp [get_status, hr]

/-- Witness for C2: a job absent from the queue whose log has neither a
readiness nor a terminal marker has status UNKNOWN. -/
theorem C2_fresh_submission_status_witness :
    get_status none { readiness := false, terminal := none } = .UNKNOWN :=
  (C2_fresh_submission_status none
    { readiness := false, terminal := none } rfl).1

/-- Claim C3: batch submission yields exactly one outcome per input
entry, in the input order, and the outcome at each position is determined
by that entry alone (so one entry's failure never aborts or alters the
outcomes of the remaining entries). -/
theorem C3_batch_outcomes (submitOne : LaunchSpec → Except String JobHandle)
    (specs : List LaunchSpec) :
    (submit_batch submitOne specs).length = specs.length ∧
    (∀ i, (submit_batch submitOne specs).get? i =
      (specs.get? i).map (submitOutcome submitOne)) := by
  induction specs with
  | nil => exact ⟨rfl, fun i => by cases i <;> rfl⟩
  | cons spec rest ih =>
    refine ⟨?_, fun i => ?_⟩
    · simpa [submit_batch] using ih.1
    · cases i with
      | zero => rfl
      | succ j => simpa [submit_batch] using ih.2 j

/-- Claim C4: shutdown is idempotent — after one shutdown call the
scheduler-side job is terminal or gone, so a second call in succession
always succeeds (already-terminal and already-gone cancels report
idempotent success), and shutdown returns an error exactly when the
scheduler cancel call itself errors. -/
theorem C4_shutdown_idempotent (s : Option SchedulerJob) :
    (shutdown (shutdown s).2).1 = .ok () ∧
    (shutdown (some { terminal := true })).1 = .ok () ∧
    (shutdown none).1 = .ok () ∧
    shutdownResult .cancelSuccess = .ok () ∧
    shutdownResult .alreadyGone = .ok () ∧
    (∀ msg, shutdownResult (.cancelError msg) = .error (.mkFailure msg)) := by
  refine ⟨?_, rfl, rfl, rfl, rfl, fun msg => rfl⟩
  match s with
  | none => rfl
  | some j =>
    by_cases hj : j.terminal <;>
      simp [shutdown, cancelPrimitive, shutdownResult, hj]

/-- Claim C5: get_metrics for a job whose status is not RUNNING returns
the status's human-readable description and attempts no network call;
the HTTP request happens only for RUNNING jobs, and there a network
failure is returned as status text (data), never as an exception. -/
theorem C5_metrics_precondition (describe : JobState → String)
    (status : JobState) (http : HttpOutcome)
    (hne : status ≠ .RUNNING) :
    get_metrics describe status http = (.statusText (describe status), false) ∧
    (∀ d, get_metrics describe .RUNNING (.httpFailure d) =
      (.statusText d, true)) ∧
    (∀ b, get_metrics describe .RUNNING (.httpOk b) = (.snapshot b, true)) :=
  ⟨by simp [get_metrics, hne], fun d => rfl, fun b => rfl⟩

/-- Witness for C5: metrics requested for a PENDING job returns the
textual status with no network call attempted, even when the endpoint
would answer. -/
theorem C5_metrics_precondition_witness :
    get_metrics (fun _ => "job not running") .PENDING (.httpOk []) =
      (.statusText "job not running", false) :=
  (C5_metrics_precondition (fun _ => "job not running") .PENDING
    (.httpOk []) (by decide)).1

/-- Claim C6: the cleanup filters are conjunctive — a directory matches
exactly when every given filter holds (family equal, name equal, job id
equal, job id strictly below before_job_id), giving no filter matches
every directory, and on directories for job ids 100 (family A), 101
(family A), 102 (family B) the filter model_family = A with
before_job_id = 101 matches exactly the directory for job 100. -/
theorem C6_cleanup_filter_conjunction (f : CleanupFilters) (d : LogDirRecord) :
    (matchesFilters f d = true ↔
      (f.model_family = none ∨ f.model_family = some d.model_family) ∧
      (f.model_name = none ∨ f.model_name = some d.model_name) ∧
      (f.job_id = none ∨ f.job_id = some d.job_id) ∧
      (f.before_job_id = none ∨
        ∃ b, f.before_job_id = some b ∧ d.job_id < b)) ∧
    matchesFilters
      { model_family := none, model_name := none, job_id := none,
        before_job_id := none } d = true ∧
    List.filter (matchesFilters
        { model_family := some "A", model_name := none, job_id := none,
          before_job_id := some 101 })
        [{ model_family := "A", model_name := "m0", job_id := 100 },
         { model_family := "A", model_name := "m1", job_id := 101 },
         { model_family := "B", model_name := "m2", job_id := 102 }] =
      [{ model_family := "A", model_name := "m0", job_id := 100 }] := by
  refine ⟨?_, by simp [matchesFilters], by decide⟩
  obtain ⟨ff, fn, fj, fb⟩ := f
  cases ff <;> cases fn <;> cases fj <;> cases fb <;>
    simp [matchesFilters] <;> aesop

/-- A terminal status is derived only when the job is absent from the
queue and the log holds a terminal marker. -/
theorem terminal_status_inv (queue : Option QueueState) (log : LogDir)
    (h : isTerminal (get_status queue log) = true) :
    queue = none ∧ ∃ t, log.terminal = some t := by
  match queue with
  | some (.waiting r) => simp [get_status, isTerminal] at h
  | some .runningState =>
    by_cases hr : log.readiness <;> simp [get_status, hr, isTerminal] at h
  | none =>
    match hlt : log.terminal with
    | some t => exact ⟨rfl, t, rfl⟩
    | none => simp [get_status, hlt, isTerminal] at h

/-- One environment step preserves a terminal derived status exactly. -/
theorem get_status_step_preserved (e e₂ : SchedulerView)
    (hstep : EnvStep e e₂)
    (hterm : isTerminal (get_status e.queue e.log) = true) :
    get_status e₂.queue e₂.log = get_status e.queue e.log := by
  obtain ⟨hq, t, ht⟩ := terminal_status_inv _ _ hterm
  obtain ⟨hr, hmark, hqueue⟩ := hstep
  simp [get_status, hq, ht, hqueue hq, hmark t ht]

/-- Claim C7: COMPLETED, FAILED, CANCELLED and SHUTDOWN are terminal —
once get_status derives a terminal status, every later poll (the
environment having evolved by append-only log growth and no queue
re-entry) derives the same status, so the observed sequence never
regresses from a terminal state to a non-terminal one. -/
theorem C7_terminal_states_monotone (e e₂ : SchedulerView)
    (hsteps : Relation.ReflTransGen EnvStep e e₂)
    (hterm : isTerminal (get_status e.queue e.log) = true) :
    get_status e₂.queue e₂.log = get_status e.queue e.log ∧
    isTerminal (get_status e₂.queue e₂.log) = true := by
  induction hsteps with
  | refl => exact ⟨rfl, hterm⟩
  | tail hs hstep ih =>
    obtain ⟨heq, hterm₂⟩ := ih
    have hpres := get_status_step_preserved _ _ hstep hterm₂
    exact ⟨hpres.trans heq, by rw [hpres]; exact hterm₂⟩

/-- Witness for C7: a job gone from the queue whose log carries a normal
exit marker keeps its terminal status across an empty evolution. -/
theorem C7_terminal_states_monotone_witness :
    get_status none { readiness := true, terminal := some .normalExit } =
      get_status none { readiness := true, terminal := some .normalExit } ∧
    isTerminal
      (get_status none { readiness := true, terminal := some .normalExit }) =
      true :=
  C7_terminal_states_monotone
    { queue := none, log := { readiness := true, terminal := some .normalExit } }
    { queue := none, log := { readiness := true, terminal := some .normalExit } }
    Relation.ReflTransGen.refl (by decide)

/-- Sequential removal processes every match: the removed set is exactly
the removable matches and the failed set exactly the rest, independent of
where in the sequence failures occur. -/
theorem cleanupRun_spec (removeOk : LogDirRecord → Bool)
    (ds : List LogDirRecord) :
    cleanupRun removeOk ds =
      (ds.filter removeOk, ds.filter (fun d => !(removeOk d))) := by
  induction ds with
  | nil => rfl
  | cons d rest ih =>
    by_cases hd : removeOk d <;>
      simp [cleanupRun, ih, hd, List.filter_cons]

/-- Claim C8: with dry_run set, cleanup returns the matched paths and
deletes nothing (the directory tree is unchanged); without dry_run every
matched directory is processed — the removed set is exactly the matches
whose removal succeeds and the failures are collected alongside, so one
entry's failure never aborts the remaining matches. -/
theorem C8_cleanup_dry_run_frame (dirs : List LogDirRecord)
    (f : CleanupFilters) (removeOk : LogDirRecord → Bool) :
    cleanup dirs f true removeOk =
      ({ matched := dirs.filter (matchesFilters f), removed := [],
         failed := [] }, dirs) ∧
    (cleanup dirs f false removeOk).1.matched =
      dirs.filter (matchesFilters f) ∧
    (cleanup dirs f false removeOk).1.removed =
      (dirs.filter (matchesFilters f)).filter removeOk ∧
    (cleanup dirs f false removeOk).1.failed =
      (dirs.filter (matchesFilters f)).filter (fun d => !(removeOk d)) ∧
    (cleanup dirs f false removeOk).2 =
      dirs.filter (fun d => !(matchesFilters f d && removeOk d)) := by
  simp [cleanup, cleanupRun_spec]

/-- Deleting the json_mode key commutes with having set its value: the
remaining dictionary is the same whatever value json_mode held. -/
theorem delKey_setKey (k : String) (v : CliValue) (kw : Kwargs) :
    delKey k (setKey k v kw) = delKey k kw := by
  induction kw with
  | nil => rfl
  | cons p rest ih =>
    simp only [setKey, delKey, List.map_cons, List.filter_cons] at ih ⊢
    by_cases hp : p.1 = k
    · simp [hp]
      simpa using ih
    · simp [hp]
      simpa using ih

/-- No entry named k survives the deletion of k. -/
theorem delKey_all (k : String) (kw : Kwargs) :
    (delKey k kw).all (fun p => p.1 != k) = true := by
  simp [delKey, List.all_eq_true, List.mem_filter]

/-- Claim C9: the launch command deletes json_mode from the keyword
arguments before constructing LaunchOptions, so two launch invocations
differing only in the json_mode value build the identical request
(model name and options) for VecInfClient.launch_model, and the request's
options never contain a json_mode entry. -/
theorem C9_json_mode_noninterference (model_name : String) (kw : Kwargs)
    (v w : CliValue) :
    launchRequest model_name (setKey "json_mode" v kw) =
      launchRequest model_name (setKey "json_mode" w kw) ∧
    launchRequest model_name (setKey "json_mode" v kw) =
      launchRequest model_name kw ∧
    (launchRequest model_name kw).options.all
      (fun p => p.1 != "json_mode") = true := by
  refine ⟨?_, ?_, delKey_all "json_mode" kw⟩ <;>
    simp [launchRequest, delKey_setKey]

/-- Claim C10: when the first get_metrics result is status text the
metrics command prints it once and returns without entering the streaming
loop; the loop runs only when the first result is a metrics snapshot, and
inside the loop every result — status text included — produces one live
table update and the loop continues. -/
theorem C10_metrics_stream (s : String) (m : List (String × Int))
    (later : List MetricsValue) :
    metricsCommand (.statusText s) later = [.printFailed s] ∧
    metricsCommand (.snapshot m) later = later.map loopEvent ∧
    (metricsCommand (.snapshot m) later).length = later.length ∧
    (∀ t rest, metricsCommand (.snapshot m) (.statusText t :: rest) =
      .liveFailed t :: rest.map loopEvent) :=
  ⟨rfl, rfl, by simp [metricsCommand], fun t rest => rfl⟩

end VecInf

